import Mathlib

/-!
Verification development for the content-moderation pipeline
(`backend/content_moderation`).  Scores are modelled as rationals,
Python dictionaries as structures with all fields present, and the
collaborating scanners (which depend on regexes, external models and
data files) as explicit function parameters.  Fallible collaborator
calls return `Except String`.
-/

namespace ContentModeration

/-- Round-half-to-even of a rational to an integer (Python `round`
tie-breaking). -/
def roundHalfEven (q : ℚ) : ℤ :=
  let f := ⌊q⌋
  let r := q - f
  if r < 1/2 then f
  else if 1/2 < r then f + 1
  else if f % 2 = 0 then f else f + 1

/-- Python `round(x, 3)`. -/
def round3 (q : ℚ) : ℚ := (roundHalfEven (q * 1000) : ℚ) / 1000

/-- Python `f"{q:.0%}"`: percentage rounded to a whole number. -/
def formatPercent (q : ℚ) : String := toString (roundHalfEven (q * 100)) ++ "%"

/-- `config.py` : `ModerationConfig` with its default field values. -/
structure ModerationConfig where
  blockThreshold : ℚ := 1/2
  flagThreshold : ℚ := 1/5
  minBlockSignals : Nat := 1
  financePassThreshold : ℚ := 3/20
  financeFlagThreshold : ℚ := 1/20
  scamWeight : ℚ := 7/10
  toxicityWeight : ℚ := 7/10
  urgencyWeight : ℚ := 0
  contextReductions : List (String × ℚ) :=
    [("warning", 7/10), ("disclaimer", 2/5), ("opinion", 1/5),
     ("past_tense", 3/10), ("question", 3/10)]
  riskAmplifiers : List (String × ℚ) :=
    [("money_request", 2/5), ("external_redirect_with_claim", 3/10),
     ("multiple_scam_keywords", 1/5)]
  fuzzyThreshold : ℚ := 4/5
  fuzzyWeight : ℚ := 2/5
  enableFuzzy : Bool := true
  semanticThreshold : ℚ := 18/25
  semanticWeight : ℚ := 3/5
  enableSemantic : Bool := true
deriving Repr

/-- `config.py` : `DEFAULT_CONFIG = ModerationConfig()`. -/
def DEFAULT_CONFIG : ModerationConfig := {}

/-- One matched rule signal (`rule_engine.py` signal dictionaries). -/
structure Signal where
  pattern : String
  severity : String
  weight : ℚ
deriving Repr, DecidableEq

/-- Result dictionary of `RuleEngine.check`. -/
structure ScamResult where
  score : ℚ := 0
  signals : List Signal := []
  severity : String := "none"
  hasWhitelistContext : Bool := false
  contextReduction : ℚ := 0
  skippedReason : Option String := none
deriving Repr, DecidableEq

/-- Result dictionary of `ToxicityChecker.check`. -/
structure ToxicResult where
  score : ℚ := 0
  isToxic : Bool := false
  categories : List String := []
  matched : List String := []
deriving Repr, DecidableEq

/-- One fuzzy match dictionary (`fuzzy_matcher.py`). -/
structure FuzzyMatch where
  input : String
  matched : String
  similarity : ℚ
  severity : String
deriving Repr, DecidableEq

/-- Result dictionary of `FuzzyMatcher.check`.  `matchList` models the
`matches` key (`matches` is reserved in Lean). -/
structure FuzzyResult where
  score : ℚ := 0
  matchList : List FuzzyMatch := []
  hasFuzzyMatch : Bool := false
  highSeverityCount : Nat := 0
deriving Repr, DecidableEq

/-- One semantic match dictionary (`semantic_checker.py`). -/
structure SemMatch where
  template : String
  similarity : ℚ
  severity : String
deriving Repr, DecidableEq

/-- Result dictionary of `SemanticChecker.check`.  `matchList` models
the `matches` key (`matches` is reserved in Lean). -/
structure SemanticResult where
  score : ℚ := 0
  matchList : List SemMatch := []
  maxSimilarity : ℚ := 0
  hasSemanticMatch : Bool := false
  highSeverityCount : Nat := 0
  enabled : Bool := true
deriving Repr, DecidableEq

/-- Result dictionary of `DomainChecker.check`. -/
structure DomainResult where
  score : ℚ := 0
  isFinance : Bool := false
  matchedTerms : List String := []
  negativeTermsFound : List String := []
  reason : Option String := none
deriving Repr, DecidableEq

/-- Metadata attached by `ContentModerator.moderate` (step "Add
preprocessing metadata"). -/
structure ModMetadata where
  originalLength : Nat := 0
  hadObfuscation : Bool := false
  urlsFound : Nat := 0
  financeTermsMatched : List String := []
  negativeTermsFound : List String := []
  fuzzyMatches : Nat := 0
  semanticMatch : Bool := false
deriving Repr, DecidableEq

/-- The verdict dictionary produced by `DecisionEngine.decide` /
`ContentModerator.moderate`. -/
structure Verdict where
  decision : String
  confidence : ℚ
  riskScore : ℚ
  isFinanceRelated : Bool
  flags : List String
  explanation : String
  metadata : Option ModMetadata := none
deriving Repr, DecidableEq

/-- `DecisionEngine.DECISION_BLOCK`. -/
def DECISION_BLOCK : String := "BLOCK"
/-- `DecisionEngine.DECISION_FLAG`. -/
def DECISION_FLAG : String := "FLAG"
/-- `DecisionEngine.DECISION_PASS`. -/
def DECISION_PASS : String := "PASS"

/-- `DecisionEngine._calculate_risk_score`. -/
def calculateRiskScore (cfg : ModerationConfig) (scam : ScamResult)
    (toxic : ToxicResult) (fuzzy : FuzzyResult) (semantic : SemanticResult) : ℚ :=
  let ruleScore := scam.score * cfg.scamWeight + toxic.score * cfg.toxicityWeight
  let fuzzyW := fuzzy.score * cfg.fuzzyWeight
  let semanticW := semantic.score * cfg.semanticWeight
  round3 (max ruleScore (max fuzzyW semanticW))

/-- `DecisionEngine._get_scam_flags`: loop over `signals` accumulating
flags and the count of high-severity signals, gated on `score >= 0.2`. -/
def getScamFlags (result : ScamResult) : List String × Nat :=
  if result.score ≥ 1/5 then
    result.signals.foldl
      (fun acc signal =>
        (acc.1 ++ ["scam:" ++ signal.pattern.take 30],
         if signal.severity = "high" then acc.2 + 1 else acc.2))
      ([], 0)
  else ([], 0)

/-- `DecisionEngine._get_fuzzy_flags`: loop over `matches[:3]`. -/
def getFuzzyFlags (result : FuzzyResult) : List String × Nat :=
  (result.matchList.take 3).foldl
    (fun acc m =>
      (acc.1 ++ ["fuzzy:" ++ m.matched.take 30],
       if m.severity = "high" then acc.2 + 1 else acc.2))
    ([], 0)

/-- `DecisionEngine._get_semantic_flags`: loop over `matches[:2]`. -/
def getSemanticFlags (result : SemanticResult) : List String × Nat :=
  (result.matchList.take 2).foldl
    (fun acc m =>
      (acc.1 ++ ["semantic:" ++ formatPercent m.similarity],
       if m.severity = "high" then acc.2 + 1 else acc.2))
    ([], 0)

/-- The fixed list of toxicity categories treated as high severity in
`DecisionEngine._get_toxic_flags`. -/
def HIGH_TOX_CATEGORIES : List String :=
  ["hate_speech", "personal_attack", "severe_profanity", "threat",
   "harassment", "doxxing", "defamation"]

/-- Category paired with matched term `i` in
`DecisionEngine._get_toxic_flags`:
`categories[i] if i < len(categories) else categories[0] if categories else "toxicity"`. -/
def toxicCategoryAt (categories : List String) (i : Nat) : String :=
  (categories.getD i (categories.headD "toxicity"))

/-- `DecisionEngine._get_toxic_flags`. -/
def getToxicFlags (result : ToxicResult) : List String × Nat :=
  if result.isToxic then
    let base :=
      (result.matched.enum.foldl
        (fun acc p =>
          (acc.1 ++ ["toxic:" ++ toxicCategoryAt result.categories p.1 ++ ":" ++ p.2],
           if toxicCategoryAt result.categories p.1 ∈ HIGH_TOX_CATEGORIES then
             acc.2 + 1
           else acc.2))
        (([] : List String), 0))
    if result.matched = [] ∧ result.categories ≠ [] then
      result.categories.foldl
        (fun acc category =>
          (acc.1 ++ ["toxic:" ++ category],
           if category ∈ HIGH_TOX_CATEGORIES then acc.2 + 1 else acc.2))
        base
    else base
  else ([], 0)

/-- `DecisionEngine._collect_flags`. -/
def collectFlags (scam : ScamResult) (toxic : ToxicResult)
    (fuzzy : FuzzyResult) (semantic : SemanticResult) : List String × Nat :=
  let s := getScamFlags scam
  let f := getFuzzyFlags fuzzy
  let sem := getSemanticFlags semantic
  let t := getToxicFlags toxic
  (s.1 ++ f.1 ++ sem.1 ++ t.1, s.2 + f.2 + sem.2 + t.2)

/-- Reason-deduplication of `DecisionEngine._build_explanation`
(`list(dict.fromkeys(reasons))`): keep first occurrences in order. -/
def dedupKeepFirst (l : List String) : List String :=
  l.foldl (fun acc r => if r ∈ acc then acc else acc ++ [r]) []

/-- `DecisionEngine._build_explanation`. -/
def buildExplanation (flags : List String) (action : String) : String :=
  if flags = [] then "Content " ++ action ++ " based on risk score"
  else
    let reasons := (flags.take 3).foldl
      (fun acc flag =>
        if flag.startsWith "scam:" then acc ++ ["scam pattern detected"]
        else if flag.startsWith "fuzzy:" then acc ++ ["misspelled scam phrase detected"]
        else if flag.startsWith "semantic:" then acc ++ ["similar to known scam"]
        else if flag.startsWith "toxic:" then
          acc ++ [(flag.replace "toxic:" "") ++ " content"]
        else if flag = "off_topic" then acc ++ ["not finance related"]
        else if flag = "low_finance_relevance" then acc ++ ["low finance relevance"]
        else acc)
      []
    "Content " ++ action ++ ": " ++ String.intercalate ", " (dedupKeepFirst reasons)

/-- `DecisionEngine._determine_verdict` (mutates `result` in place in the
source; modelled as returning the updated verdict). -/
def determineVerdict (cfg : ModerationConfig) (result : Verdict)
    (score : ℚ) (severityCount : Nat) : Verdict :=
  if score ≥ cfg.blockThreshold ∨ severityCount ≥ cfg.minBlockSignals then
    { result with
        decision := DECISION_BLOCK
        explanation := buildExplanation result.flags "blocked"
        confidence := min (99/100) score }
  else if score ≥ cfg.flagThreshold ∨ (severityCount ≥ 1 ∧ score ≥ 1/10) then
    { result with
        decision := DECISION_FLAG
        explanation := buildExplanation result.flags "flagged"
        confidence := score }
  else
    { result with explanation := "Content appears safe" }

/-- `DecisionEngine.decide` (the `fuzzy_result`/`semantic_result`
defaults of the source are always supplied by `moderate`, so they are
plain arguments here). -/
def decide (cfg : ModerationConfig) (domainResult : DomainResult)
    (scamResult : ScamResult) (toxicityResult : ToxicResult)
    (fuzzyResult : FuzzyResult) (semanticResult : SemanticResult) : Verdict :=
  let result : Verdict :=
    { decision := DECISION_PASS
      confidence := 1
      riskScore := 0
      isFinanceRelated := domainResult.isFinance
      flags := []
      explanation := "" }
  let financeScore := domainResult.score
  let isFinance := domainResult.isFinance
  if financeScore < cfg.financeFlagThreshold ∨ (financeScore < 3/20 ∧ ¬isFinance) then
    { result with
        decision := DECISION_BLOCK
        flags := result.flags ++ ["off_topic"]
        explanation := "Content is not related to finance"
        confidence := 1 - financeScore }
  else
    let flags1 :=
      if financeScore < cfg.financePassThreshold then
        result.flags ++ ["low_finance_relevance"]
      else result.flags
    let riskScore := calculateRiskScore cfg scamResult toxicityResult fuzzyResult semanticResult
    let collected := collectFlags scamResult toxicityResult fuzzyResult semanticResult
    determineVerdict cfg
      { result with riskScore := riskScore, flags := flags1 ++ collected.1 }
      riskScore collected.2

/-! ## Semantic checker (`semantic_checker.py`)

The embedding model and cosine similarities are external collaborators,
so `SemanticChecker.check` is embedded as a function of the similarity
vector the model produced for the input text against the template bank. -/

/-- The score-scaling step of `SemanticChecker.check` (the
`if max_similarity >= self.threshold` / quadratic-else block). -/
def semanticScale (threshold m : ℚ) : ℚ :=
  if m ≥ threshold then 1/2 + (m - threshold) / (1 - threshold) * (1/2)
  else (m / threshold) ^ 2 * (1/2)

/-- Descending stable sort by similarity
(`matches.sort(key=..., reverse=True)`). -/
def sortMatchesDesc (l : List SemMatch) : List SemMatch :=
  l.mergeSort (fun a b => b.similarity ≤ a.similarity)

/-- `SemanticChecker.check`, parameterised by the template bank
(text, severity) and the cosine-similarity vector `sims` (one entry per
template) computed by the external embedding model.  `whitelistHit`
abstracts the whitelist-context substring scan over the input text. -/
def semanticCheck (threshold : ℚ) (enable : Bool) (whitelistHit : Bool)
    (templates : List (String × String)) (sims : List ℚ) : SemanticResult :=
  if ¬enable then
    { score := 0, matchList := [], enabled := false }
  else if whitelistHit then
    { score := 0, matchList := [], hasSemanticMatch := false, enabled := true }
  else
    let pairs := templates.zip sims
    let found := pairs.foldl
      (fun acc p =>
        if p.2 ≥ threshold then
          acc ++ [{ template := p.1.1, similarity := round3 p.2, severity := p.1.2 }]
        else acc)
      ([] : List SemMatch)
    let maxSimilarity := sims.foldl (fun m s => max m s) 0
    let sorted := sortMatchesDesc found
    let score := semanticScale threshold maxSimilarity
    { score := round3 score
      maxSimilarity := round3 maxSimilarity
      matchList := sorted.take 5
      hasSemanticMatch := Decidable.decide (0 < found.length)
      highSeverityCount := (sorted.filter (fun m => m.severity = "high")).length
      enabled := true }

/-! ## Rule engine (`rule_engine.py`)

The five sub-scanners (`_scan_keywords`, `_scan_money_requests`,
`_scan_regex_patterns`, `_scan_solicitation`, `_scan_mlm`) match
regexes and data-file patterns; each produces a `(signals, score)`
pair.  `RuleEngine.check` is embedded as the aggregation of those five
pairs under the context reduction computed by `_check_context`. -/

/-- The aggregation logic of `RuleEngine.check`, with the context
reduction and the five sub-scanner `(signals, score)` outputs as
inputs. -/
def ruleCheckAggregate (contextReduction : ℚ)
    (kw money rgx solicit mlm : List Signal × ℚ) : ScamResult :=
  let result0 : ScamResult :=
    { score := 0, signals := [], severity := "none",
      hasWhitelistContext := Decidable.decide (0 < contextReduction),
      contextReduction := contextReduction }
  if contextReduction ≥ 9/10 then
    { result0 with
        score := 0
        severity := "none"
        skippedReason := some "strong_whitelist_context" }
  else
    let matchedSignals := kw.1 ++ money.1 ++ rgx.1 ++ solicit.1 ++ mlm.1
    let rawScore := kw.2 + money.2 + rgx.2 + solicit.2 + mlm.2
    let step1 :=
      if 0 < contextReduction ∧ 0 < rawScore then
        (rawScore * (1 - contextReduction),
         if contextReduction ≥ 1/2 then ([] : List Signal) else matchedSignals)
      else (rawScore, matchedSignals)
    let finalScore := min 1 step1.1
    let step2 :=
      if 0 < contextReduction then
        let fs := max 0 (finalScore * (1 - contextReduction))
        (fs, if fs < 1/5 then step1.2.filter (fun s => s.severity = "low") else step1.2)
      else (finalScore, step1.2)
    { result0 with
        score := round3 step2.1
        signals := step2.2
        severity :=
          if step2.1 ≥ 7/10 then "high"
          else if step2.1 ≥ 2/5 then "medium"
          else if 0 < step2.1 then "low"
          else "none" }

/-! ## Domain checker (`domain_checker.py`)

Text is modelled as its lower-cased word list (`text_lower.split()`);
the word-boundary regex of `_match_term` becomes whole-word membership
and the multi-word substring match becomes a consecutive-run match.
The vocabulary (a data file) is a parameter. -/

/-- `DomainChecker.AMBIGUOUS_TERMS`. -/
def AMBIGUOUS_TERMS : List String :=
  ["budget", "loss", "support", "target", "profit", "risk", "offering",
   "bond", "security", "selling", "sell", "buy", "buying", "paid",
   "premium", "rs", "rupees", "inr", "cost", "price"]

/-- The noise entities ignored by the entity boost (`{'dm','pm','admin'}`). -/
def NOISE_ENTITIES : List String := ["dm", "pm", "admin"]

/-- The topic-defining entity labels of the coherence check. -/
def TOPIC_LABELS : List String :=
  ["PERSON", "ORG", "GPE", "NORP", "EVENT", "FAC", "LAW", "PRODUCT"]

/-- Whole-word leading match: `parts` equals the first words of the list. -/
def wordsLeadWith : List String → List String → Bool
  | [], _ => true
  | _ :: _, [] => false
  | p :: ps, w :: ws => p = w && wordsLeadWith ps ws

/-- Consecutive-run occurrence of `parts` inside a word list. -/
def wordsHaveRun (parts : List String) : List String → Bool
  | [] => wordsLeadWith parts []
  | w :: ws => wordsLeadWith parts (w :: ws) || wordsHaveRun parts ws

/-- Split a character list on spaces (Python `str.split(' ')` /
`String.splitOn " "`, hand-rolled so that it reduces). -/
def splitOnSpaceAux : List Char → List Char → List String
  | [], acc => [String.mk acc.reverse]
  | ch :: cs, acc =>
    if ch = ' ' then String.mk acc.reverse :: splitOnSpaceAux cs []
    else splitOnSpaceAux cs (ch :: acc)

/-- Split a string on spaces. -/
def splitOnSpace (s : String) : List String := splitOnSpaceAux s.data []

/-- ASCII lower-casing of one character (Python `str.lower` on the
character sets involved). -/
def charLower (ch : Char) : Char :=
  if 'A' ≤ ch ∧ ch ≤ 'Z' then Char.ofNat (ch.toNat + 32) else ch

/-- ASCII lower-casing (Python `str.lower`). -/
def strLower (s : String) : String := String.mk (s.data.map charLower)

/-- `DomainChecker._match_term` on the tokenised text model: single
tokens need a whole-word match, multi-word phrases a consecutive run. -/
def matchTerm (term : String) (words : List String) : Bool :=
  let parts := splitOnSpace term
  if parts.length ≤ 1 then words.contains term
  else wordsHaveRun parts words

/-- The vocabulary sets loaded by `DomainChecker._load_vocabulary` from
`finance_vocabulary.json` (a data file, hence a parameter). -/
structure DomainVocab where
  financeTerms : List String := []
  highPriorityTerms : List String := []
  strongFinanceTerms : List String := []
  negativeTerms : List String := []
deriving Repr

/-- One sentence of the SpaCy doc: lower-cased tokens plus named
entities (text, label). -/
structure SentenceInfo where
  tokens : List String := []
  ents : List (String × String) := []
deriving Repr, DecidableEq

/-- The linguistic-analysis collaborator result consumed by the domain
checker (`entities`, `doc`, `is_available`). -/
structure LinguisticResult where
  isAvailable : Bool := false
  entities : List (String × String) := []
  doc : Option (List SentenceInfo) := none
deriving Repr, DecidableEq

/-- `DomainChecker.check` on the tokenised text model. -/
def domainCheck (vocab : DomainVocab) (words : List String)
    (ling : LinguisticResult) : DomainResult :=
  if words = [] then
    { score := 0, isFinance := false, matchedTerms := [], negativeTermsFound := [] }
  else
    let matched := vocab.financeTerms.filter (fun t => matchTerm t words)
    let highPriorityMatches := (matched.filter (fun t => t ∈ vocab.highPriorityTerms)).length
    let strongSignalFound := matched.any (fun t => t ∈ vocab.strongFinanceTerms)
    let negativeMatches0 := vocab.negativeTerms.filter (fun t => matchTerm t words)
    let meaningfulWords := (words.filter (fun w => 2 < w.length)).length
    if meaningfulWords = 0 then
      { score := 0, isFinance := false, matchedTerms := [], negativeTermsFound := [] }
    else
      let baseScore0 : ℚ := ((matched.dedup).length : ℚ) / meaningfulWords
      let baseScore1 :=
        if 0 < highPriorityMatches then
          min 1 (baseScore0 + (1/10) * highPriorityMatches)
        else baseScore0
      let eb :=
        if ling.isAvailable then
          ling.entities.foldl
            (fun acc ent =>
              let entLower := strLower ent.1
              if entLower ∈ vocab.negativeTerms then acc
              else if entLower ∈ NOISE_ENTITIES then acc
              else if ent.2 = "ORG" then (acc.1 + 1/20, acc.2 ++ [ent.1])
              else if ent.2 = "MONEY" then (acc.1 + 1/10, acc.2 ++ [ent.1])
              else acc)
            ((0 : ℚ), ([] : List String))
        else (0, [])
      let entityBoost := eb.1
      let foundEntities := eb.2
      -- the source contains this statement twice (lines 154 and 156);
      -- both occurrences are kept
      let baseScore2 := baseScore1 + min (1/5) entityBoost
      let baseScore3 := baseScore2 + min (1/5) entityBoost
      let baseScore4 :=
        if negativeMatches0 ≠ [] then
          max 0 (baseScore3 - (3/20) * ((negativeMatches0.dedup).length : ℚ))
        else baseScore3
      let coh :=
        match ling.doc with
        | none => ((0 : ℚ), negativeMatches0)
        | some sents =>
          sents.foldl
            (fun (acc : ℚ × List String) (sent : SentenceInfo) =>
              if sent.tokens.length < 6 then acc
              else
                let hasFinanceContext := vocab.financeTerms.any (fun t => matchTerm t sent.tokens)
                if hasFinanceContext then acc
                else
                  let topicEntities := sent.ents.filter (fun (e : String × String) => e.2 ∈ TOPIC_LABELS)
                  if topicEntities ≠ [] then
                    let newDrift := topicEntities.all (fun e => strLower e.1 ∉ vocab.negativeTerms)
                    if newDrift then
                      (acc.1 + 3/20,
                       acc.2 ++ ["off_topic_entity:" ++ (topicEntities.headD ("", "")).2])
                    else acc
                  else acc)
            ((0 : ℚ), negativeMatches0)
      let coherencePenalty := coh.1
      let negativeMatches := coh.2
      let baseScore5 :=
        if 0 < coherencePenalty then max 0 (baseScore4 - coherencePenalty)
        else baseScore4
      let uniqueMatches := matched.dedup
      if uniqueMatches ≠ [] ∧ uniqueMatches.all (fun t => t ∈ AMBIGUOUS_TERMS) ∧
          ¬strongSignalFound ∧ foundEntities = [] then
        { score := 1/20, isFinance := false, matchedTerms := matched,
          negativeTermsFound := negativeMatches.dedup,
          reason := some "ambiguous_only" }
      else
        let verdict :=
          if negativeMatches ≠ [] then (Decidable.decide (baseScore5 ≥ 3/20), baseScore5)
          else if strongSignalFound then (true, max baseScore5 (1/4))
          else if baseScore5 ≥ 1/10 ∧ foundEntities ≠ [] then (true, max baseScore5 (1/4))
          else (Decidable.decide (baseScore5 ≥ 1/20), baseScore5)
        { score := round3 verdict.2
          isFinance := verdict.1
          matchedTerms := matched.dedup
          negativeTermsFound := negativeMatches.dedup }

/-! ## Top-level moderation (`moderator.py`) -/

/-- The result of `ContentAnalyzer.analyze` as consumed by `moderate`. -/
structure ContentAnalysis where
  unifiedScore : ℚ := 0
  isSubstantiveFinance : Bool := false
deriving Repr, DecidableEq

/-- The content-analysis override of the domain result
(`ContentModerator.moderate`, the decision-matrix block). -/
def applyContentAnalysis (d : DomainResult) (analysisScore : ℚ) : DomainResult :=
  let vocabScore := d.score
  if analysisScore ≥ 1/2 then
    { d with score := max vocabScore analysisScore, isFinance := true }
  else if analysisScore < 7/20 then
    { d with score := 0, isFinance := false }
  else if vocabScore ≥ 1/5 then
    { d with score := (vocabScore + analysisScore) / 2, isFinance := true }
  else
    { d with score := 0, isFinance := false }

/-- Metadata dictionary produced by `TextPreprocessor.preprocess`. -/
structure PreprocessMeta where
  originalLength : Nat := 0
  urlsFound : List String := []
  mentionsFound : List String := []
  hadObfuscation : Bool := false
deriving Repr, DecidableEq

/-- The collaborator bundle used by `ContentModerator.moderate`: the
preprocessor, linguistic analyzer and the scanners, each a function
that may fail (raise), modelled with `Except`.  `Option` models the
lazily loaded components whose loader may return `None`. -/
structure Collaborators where
  preprocessFn : String → Except String (String × PreprocessMeta)
  linguisticFn : String → Except String LinguisticResult
  domainFn : String → LinguisticResult → Except String DomainResult
  contentAnalyzerFn : Option (String → LinguisticResult → Except String ContentAnalysis)
  ruleFn : String → Except String ScamResult
  fuzzyFn : Option (String → Except String FuzzyResult)
  semanticFn : Option (String → Except String SemanticResult)
  toxicityFn : String → LinguisticResult → Except String ToxicResult

/-- The verdict `moderate` returns for empty or whitespace-only input. -/
def emptyContentVerdict : Verdict :=
  { decision := "FLAG", confidence := 1, riskScore := 0,
    isFinanceRelated := false, flags := ["empty_content"],
    explanation := "Content is empty" }

/-- The fail-safe verdict of `moderate`'s top-level exception handler. -/
def systemErrorVerdict : Verdict :=
  { decision := "FLAG", confidence := 0, riskScore := 1,
    isFinanceRelated := false, flags := ["system_error"],
    explanation := "System encountered an error during processing." }

/-- The body of the `try:` block of `ContentModerator.moderate`
(steps 1-7 plus the metadata attachment).  Sub-scanner failures that
the source catches locally (content analyzer, fuzzy, semantic) degrade
in place; all other failures propagate as `Except.error`. -/
def moderatePipeline (cfg : ModerationConfig) (c : Collaborators)
    (content : String) : Except String Verdict :=
  match c.preprocessFn content with
  | .error e => .error e
  | .ok pre =>
    match c.linguisticFn content with
    | .error e => .error e
    | .ok linguisticResult =>
      match c.domainFn pre.1 linguisticResult with
      | .error e => .error e
      | .ok domainResult0 =>
        let domainResult :=
          match c.contentAnalyzerFn with
          | none => domainResult0
          | some analyzer =>
            match analyzer content linguisticResult with
            | .error _ => domainResult0
            | .ok contentAnalysis =>
              applyContentAnalysis domainResult0 contentAnalysis.unifiedScore
        match c.ruleFn pre.1 with
        | .error e => .error e
        | .ok scamResult =>
          let fuzzyResult : FuzzyResult :=
            if cfg.enableFuzzy then
              match c.fuzzyFn with
              | some m =>
                match m pre.1 with
                | .ok r => r
                | .error _ => {}
              | none => {}
            else {}
          let semanticResult : SemanticResult :=
            match c.semanticFn with
            | some s =>
              match s content with
              | .ok r => r
              | .error _ => {}
            | none => {}
          match c.toxicityFn pre.1 linguisticResult with
          | .error e => .error e
          | .ok toxicityResult =>
            let dec :=
              decide cfg domainResult scamResult toxicityResult fuzzyResult semanticResult
            .ok { dec with
              metadata := some
                { originalLength := pre.2.originalLength
                  hadObfuscation := pre.2.hadObfuscation
                  urlsFound := pre.2.urlsFound.length
                  financeTermsMatched := domainResult.matchedTerms.take 5
                  negativeTermsFound := domainResult.negativeTermsFound
                  fuzzyMatches := fuzzyResult.matchList.length
                  semanticMatch := semanticResult.hasSemanticMatch } }

/-- The whitespace characters removed by Python's `str.strip()`. -/
def isPyWhitespace (ch : Char) : Bool :=
  ch = ' ' || ch = '\t' || ch = '\n' || ch = '\r' ||
  ch = Char.ofNat 11 || ch = Char.ofNat 12

/-- Python's `content.strip()`. -/
def pyStrip (s : String) : String :=
  String.mk (((s.data.dropWhile isPyWhitespace).reverse.dropWhile
    isPyWhitespace).reverse)

/-- Python's `not content or not content.strip()`. -/
def isBlankInput (content : String) : Bool :=
  content = "" || pyStrip content = ""

/-- `ContentModerator.moderate`. -/
def moderate (cfg : ModerationConfig) (c : Collaborators) (content : String) : Verdict :=
  if isBlankInput content then emptyContentVerdict
  else
    match moderatePipeline cfg c content with
    | .ok v => v
    | .error _ => systemErrorVerdict

/-! ## Concrete instances used in evaluations -/

/-- A collaborator bundle where every component succeeds and every
scanner reports nothing; the domain checker reports a clearly
finance-related text. -/
def benignCollab : Collaborators :=
  { preprocessFn := fun t => Except.ok (t, {})
    linguisticFn := fun _ => Except.ok {}
    domainFn := fun _ _ => Except.ok { score := 1/5, isFinance := true }
    contentAnalyzerFn := none
    ruleFn := fun _ => Except.ok {}
    fuzzyFn := none
    semanticFn := none
    toxicityFn := fun _ _ => Except.ok {} }

/-- Like `benignCollab`, but the rule scanner and the toxicity scanner
both report their clamped maximal score of 1 (each scanner clamps its
own score to [0,1] in the source). -/
def maxSignalCollab : Collaborators :=
  { benignCollab with
      ruleFn := fun _ => Except.ok { score := 1 }
      toxicityFn := fun _ _ => Except.ok { score := 1 } }

/-- Like `benignCollab`, but the rule scanner raises. -/
def failingCollab : Collaborators :=
  { benignCollab with ruleFn := fun _ => Except.error "boom" }

/-- Tiny finance vocabulary used to evaluate the entity boost. -/
def entityVocab : DomainVocab :=
  { financeTerms := ["stocks", "market"] }

/-- Tokenised input for the entity-boost evaluation. -/
def entityWords : List String := ["stocks", "market"]

/-- Linguistic result with no entities. -/
def lingNoEntities : LinguisticResult := { isAvailable := true, entities := [] }

/-- Linguistic result with two MONEY entities (boost 0.1 each, capped
at 0.2 in total per the claim). -/
def lingTwoMoney : LinguisticResult :=
  { isAvailable := true
    entities := [("$500", "MONEY"), ("500 dollars", "MONEY")] }

/-- Example high-severity rule signal used in evaluations. -/
def highSig : Signal :=
  { pattern := "send money to my upi", severity := "high", weight := 1 }

/-- Example rule-scanner result carrying one high-severity signal and a
score above the 0.2 flag gate but below the block threshold. -/
def scamOneHigh : ScamResult := { score := 1/4, signals := [highSig] }

/-- The scanner-score invariant the source scanners establish by
clamping: every successfully returned rule/toxicity/fuzzy/semantic
score lies in [0,1]. -/
def ScannerBounds (c : Collaborators) : Prop :=
  (∀ t r, c.ruleFn t = Except.ok r → 0 ≤ r.score ∧ r.score ≤ 1) ∧
  (∀ t l r, c.toxicityFn t l = Except.ok r → 0 ≤ r.score ∧ r.score ≤ 1) ∧
  (∀ g t r, c.fuzzyFn = some g → g t = Except.ok r → 0 ≤ r.score ∧ r.score ≤ 1) ∧
  (∀ g t r, c.semanticFn = some g → g t = Except.ok r → 0 ≤ r.score ∧ r.score ≤ 1)

/-! ## Helper lemmas -/

lemma roundHalfEven_nonneg (q : ℚ) (h : 0 ≤ q) : 0 ≤ roundHalfEven q := by
  have hf : (0 : ℤ) ≤ ⌊q⌋ := Int.floor_nonneg.mpr h
  unfold roundHalfEven
  dsimp only
  split
  · exact hf
  · split
    · omega
    · split <;> omega

lemma roundHalfEven_le_int (q : ℚ) (n : ℤ) (h : q ≤ (n : ℚ)) :
    roundHalfEven q ≤ n := by
  have hfl : ⌊q⌋ ≤ n := by
    have := Int.floor_le_floor h
    simpa using this
  unfold roundHalfEven
  dsimp only
  split
  · exact hfl
  · rename_i h1
    push_neg at h1
    have hq : (⌊q⌋ : ℚ) + 1/2 ≤ q := by
      have := Int.floor_le q
      linarith
    have hcast : (⌊q⌋ : ℚ) < (n : ℚ) := by linarith
    have hfn : ⌊q⌋ < n := by exact_mod_cast hcast
    split
    · omega
    · split <;> omega

lemma round3_nonneg (q : ℚ) (h : 0 ≤ q) : 0 ≤ round3 q := by
  unfold round3
  have := roundHalfEven_nonneg (q * 1000) (by positivity)
  positivity

lemma round3_le_div1000 (q : ℚ) (n : ℤ) (h : q ≤ (n : ℚ) / 1000) :
    round3 q ≤ (n : ℚ) / 1000 := by
  unfold round3
  have h1 : q * 1000 ≤ (n : ℚ) := by linarith
  have h2 := roundHalfEven_le_int (q * 1000) n h1
  have h3 : ((roundHalfEven (q * 1000) : ℤ) : ℚ) ≤ (n : ℚ) := by exact_mod_cast h2
  linarith

lemma foldl_flags_spec {α : Type} (g : α → String) (p : α → Prop) [DecidablePred p]
    (l : List α) (fl : List String) (n : ℕ) :
    l.foldl (fun acc x => (acc.1 ++ [g x], if p x then acc.2 + 1 else acc.2)) (fl, n)
      = (fl ++ l.map g, n + (l.filter (fun x => p x)).length) := by
  induction l generalizing fl n with
  | nil => simp
  | cons a t ih =>
    simp only [List.foldl_cons, List.map_cons, List.filter_cons]
    by_cases h : p a
    · rw [if_pos h, ih]
      refine Prod.ext ?_ ?_
      · simp [List.append_assoc]
      · simp [h]
        omega
    · rw [if_neg h, ih]
      simp [h]

lemma getScamFlags_count (r : ScamResult) :
    (getScamFlags r).2 =
      if r.score ≥ 1/5 then
        (r.signals.filter (fun s => s.severity = "high")).length
      else 0 := by
  unfold getScamFlags
  split
  · rw [foldl_flags_spec]
    simp
  · rfl

lemma getFuzzyFlags_count (r : FuzzyResult) :
    (getFuzzyFlags r).2 =
      ((r.matchList.take 3).filter (fun m => m.severity = "high")).length := by
  unfold getFuzzyFlags
  rw [foldl_flags_spec]
  simp

lemma getSemanticFlags_count (r : SemanticResult) :
    (getSemanticFlags r).2 =
      ((r.matchList.take 2).filter (fun m => m.severity = "high")).length := by
  unfold getSemanticFlags
  rw [foldl_flags_spec]
  simp

lemma getToxicFlags_count (r : ToxicResult) :
    (getToxicFlags r).2 =
      if r.isToxic then
        (if r.matched = [] ∧ r.categories ≠ [] then
          (r.categories.filter (fun c => c ∈ HIGH_TOX_CATEGORIES)).length
        else
          (r.matched.enum.filter
            (fun p => toxicCategoryAt r.categories p.1 ∈ HIGH_TOX_CATEGORIES)).length)
      else 0 := by
  unfold getToxicFlags
  split
  · rw [foldl_flags_spec]
    split
    · rename_i hcase
      rw [foldl_flags_spec]
      simp [hcase.1]
    · simp
  · rfl

lemma determineVerdict_riskScore (cfg : ModerationConfig) (v : Verdict)
    (s : ℚ) (n : ℕ) : (determineVerdict cfg v s n).riskScore = v.riskScore := by
  unfold determineVerdict
  split
  · rfl
  · split
    · rfl
    · rfl

lemma determineVerdict_decision_cases (cfg : ModerationConfig) (v : Verdict)
    (s : ℚ) (n : ℕ) :
    (determineVerdict cfg v s n).decision = DECISION_BLOCK ∨
    (determineVerdict cfg v s n).decision = DECISION_FLAG ∨
    (determineVerdict cfg v s n).decision = v.decision := by
  unfold determineVerdict
  split
  · left; rfl
  · split
    · right; left; rfl
    · right; right; rfl

lemma decide_decision_cases (cfg : ModerationConfig) (d : DomainResult)
    (s : ScamResult) (t : ToxicResult) (f : FuzzyResult) (m : SemanticResult) :
    (decide cfg d s t f m).decision = DECISION_PASS ∨
    (decide cfg d s t f m).decision = DECISION_FLAG ∨
    (decide cfg d s t f m).decision = DECISION_BLOCK := by
  unfold decide determineVerdict
  dsimp only
  split
  · right; right; rfl
  · split
    · right; right; rfl
    · split
      · right; left; rfl
      · left; rfl

lemma moderatePipeline_ok_bounds (cfg : ModerationConfig) (c : Collaborators)
    (content : String) (v : Verdict) (h : ScannerBounds c)
    (hok : moderatePipeline cfg c content = Except.ok v) :
    ∃ (d : DomainResult) (s : ScamResult) (t : ToxicResult) (f : FuzzyResult)
      (m : SemanticResult),
      v.decision = (decide cfg d s t f m).decision ∧
      v.riskScore = (decide cfg d s t f m).riskScore ∧
      (0 ≤ s.score ∧ s.score ≤ 1) ∧ (0 ≤ t.score ∧ t.score ≤ 1) ∧
      (0 ≤ f.score ∧ f.score ≤ 1) ∧ (0 ≤ m.score ∧ m.score ≤ 1) := by
  unfold moderatePipeline at hok
  repeat' split at hok
  any_goals exact Except.noConfusion hok
  all_goals (
    have hv := (Except.ok.inj hok).symm
    subst hv
    refine ⟨_, _, _, _, _, rfl, rfl, ?_, ?_, ?_, ?_⟩
    · exact h.1 _ _ (by assumption)
    · exact h.2.1 _ _ _ (by assumption)
    · first
        | exact ⟨le_refl _, by norm_num⟩
        | exact h.2.2.1 _ _ _ (by assumption) (by assumption)
    · first
        | exact ⟨le_refl _, by norm_num⟩
        | exact h.2.2.2 _ _ _ (by assumption) (by assumption))

lemma take_append_left {α : Type} (l l2 : List α) (n : ℕ) (h : n ≤ l.length) :
    (l ++ l2).take n = l.take n := by
  rw [List.take_append_eq_append_take, Nat.sub_eq_zero_of_le h]
  simp

lemma decide_risk_bounds_default (d : DomainResult) (s : ScamResult)
    (t : ToxicResult) (f : FuzzyResult) (m : SemanticResult)
    (hs : 0 ≤ s.score ∧ s.score ≤ 1) (ht : 0 ≤ t.score ∧ t.score ≤ 1)
    (hf : 0 ≤ f.score ∧ f.score ≤ 1) (hm : 0 ≤ m.score ∧ m.score ≤ 1) :
    0 ≤ (decide DEFAULT_CONFIG d s t f m).riskScore ∧
    (decide DEFAULT_CONFIG d s t f m).riskScore ≤ 7/5 := by
  unfold decide
  dsimp only
  split
  · exact ⟨le_refl _, by norm_num⟩
  · rw [determineVerdict_riskScore]
    show 0 ≤ calculateRiskScore DEFAULT_CONFIG s t f m ∧
      calculateRiskScore DEFAULT_CONFIG s t f m ≤ 7/5
    unfold calculateRiskScore
    dsimp only
    have hsw : DEFAULT_CONFIG.scamWeight = 7/10 := rfl
    have htw : DEFAULT_CONFIG.toxicityWeight = 7/10 := rfl
    have hfw : DEFAULT_CONFIG.fuzzyWeight = 2/5 := rfl
    have hmw : DEFAULT_CONFIG.semanticWeight = 3/5 := rfl
    rw [hsw, htw, hfw, hmw]
    have hrule0 : 0 ≤ s.score * (7/10 : ℚ) + t.score * (7/10 : ℚ) := by
      have h1 := mul_nonneg hs.1 (by norm_num : (0:ℚ) ≤ 7/10)
      have h2 := mul_nonneg ht.1 (by norm_num : (0:ℚ) ≤ 7/10)
      linarith
    constructor
    · exact round3_nonneg _ (le_trans hrule0 (le_max_left _ _))
    · have hb : max (s.score * (7/10 : ℚ) + t.score * (7/10 : ℚ))
          (max (f.score * (2/5 : ℚ)) (m.score * (3/5 : ℚ))) ≤ ((1400 : ℤ) : ℚ) / 1000 := by
        apply max_le
        · push_cast
          nlinarith [hs.2, ht.2]
        · apply max_le
          · push_cast
            nlinarith [hf.1, hf.2]
          · push_cast
            nlinarith [hm.1, hm.2]
      calc round3 _ ≤ ((1400 : ℤ) : ℚ) / 1000 := round3_le_div1000 _ 1400 hb
        _ = 7/5 := by norm_num

/-! ## Claim theorems -/

/-- C1 (counterexample): the claim as stated is false on the code.  The
allow verdict carries the decision string "PASS", not "ALLOW", and with
the default weights (scam 0.7 + toxicity 0.7) a maximal rule score and
a maximal toxicity score fuse to a risk score of 1.4 > 1. -/
theorem moderate_decision_not_ALLOW_and_risk_above_one :
    (moderate DEFAULT_CONFIG benignCollab "investing in stocks").decision = "PASS" ∧
    ("PASS" : String) ∉ (["ALLOW", "FLAG", "BLOCK"] : List String) ∧
    (moderate DEFAULT_CONFIG maxSignalCollab "investing in stocks").riskScore = 7/5 ∧
    ¬((7 : ℚ)/5 ≤ 1) := by
  refine ⟨?_, by decide, ?_, by norm_num⟩
  · norm_num +decide [moderate, moderatePipeline, benignCollab, isBlankInput, pyStrip,
      isPyWhitespace, ContentModeration.decide, determineVerdict, calculateRiskScore,
      collectFlags, getScamFlags, getFuzzyFlags, getSemanticFlags, getToxicFlags,
      DEFAULT_CONFIG, round3, roundHalfEven, DECISION_PASS, List.dropWhile]
  · norm_num +decide [moderate, moderatePipeline, maxSignalCollab, benignCollab,
      isBlankInput, pyStrip, isPyWhitespace, ContentModeration.decide, determineVerdict,
      calculateRiskScore, collectFlags, getScamFlags, getFuzzyFlags, getSemanticFlags,
      getToxicFlags, DEFAULT_CONFIG, round3, roundHalfEven, DECISION_BLOCK,
      List.dropWhile]

/-- C1 (amended): for every collaborator bundle whose scanners keep
their scores in [0,1] (which the source scanners guarantee by
clamping) and every input text, `moderate` under the default
configuration terminates (it is a total function) and returns a
decision that is exactly one of PASS/FLAG/BLOCK, with a risk score in
[0, scam_weight + toxicity_weight] = [0, 1.4]. -/
theorem moderate_decision_in_PASS_FLAG_BLOCK_and_risk_bounds
    (c : Collaborators) (content : String) (h : ScannerBounds c) :
    ((moderate DEFAULT_CONFIG c content).decision = DECISION_PASS ∨
     (moderate DEFAULT_CONFIG c content).decision = DECISION_FLAG ∨
     (moderate DEFAULT_CONFIG c content).decision = DECISION_BLOCK) ∧
    0 ≤ (moderate DEFAULT_CONFIG c content).riskScore ∧
    (moderate DEFAULT_CONFIG c content).riskScore ≤ 7/5 := by
  unfold moderate
  split
  · refine ⟨Or.inr (Or.inl rfl), ?_, ?_⟩ <;> norm_num [emptyContentVerdict]
  · split
    · rename_i v hv
      obtain ⟨d, s, t, f, m, hdec, hrisk, hs, ht, hf, hm⟩ :=
        moderatePipeline_ok_bounds DEFAULT_CONFIG c content v h hv
      refine ⟨?_, ?_, ?_⟩
      · rw [hdec]
        exact decide_decision_cases DEFAULT_CONFIG d s t f m
      · rw [hrisk]
        exact (decide_risk_bounds_default d s t f m hs ht hf hm).1
      · rw [hrisk]
        exact (decide_risk_bounds_default d s t f m hs ht hf hm).2
    · refine ⟨Or.inr (Or.inl rfl), ?_, ?_⟩ <;> norm_num [systemErrorVerdict]

/-- C1 (witness): the benign collaborator bundle satisfies the scanner
bounds, and the amended statement holds for it on a concrete text. -/
theorem moderate_decision_in_PASS_FLAG_BLOCK_and_risk_bounds_witness :
    ScannerBounds benignCollab ∧
    (((moderate DEFAULT_CONFIG benignCollab "hello stocks").decision = DECISION_PASS ∨
      (moderate DEFAULT_CONFIG benignCollab "hello stocks").decision = DECISION_FLAG ∨
      (moderate DEFAULT_CONFIG benignCollab "hello stocks").decision = DECISION_BLOCK) ∧
     0 ≤ (moderate DEFAULT_CONFIG benignCollab "hello stocks").riskScore ∧
     (moderate DEFAULT_CONFIG benignCollab "hello stocks").riskScore ≤ 7/5) := by
  have hb : ScannerBounds benignCollab := by
    refine ⟨?_, ?_, ?_, ?_⟩
    · intro t r hr
      simp only [benignCollab, Except.ok.injEq] at hr
      subst hr
      exact ⟨le_refl _, by norm_num⟩
    · intro t l r hr
      simp only [benignCollab, Except.ok.injEq] at hr
      subst hr
      exact ⟨le_refl _, by norm_num⟩
    · intro g t r hg _
      simp only [benignCollab] at hg
      exact Option.noConfusion hg
    · intro g t r hg _
      simp only [benignCollab] at hg
      exact Option.noConfusion hg
  exact ⟨hb, moderate_decision_in_PASS_FLAG_BLOCK_and_risk_bounds benignCollab
    "hello stocks" hb⟩

/-- C2 (counterexample): in the otherwise-case the engine's decision is
the string "PASS", not "ALLOW" as the claim states. -/
theorem decide_low_risk_returns_PASS_not_ALLOW :
    (decide DEFAULT_CONFIG { score := 1/5, isFinance := true } {} {} {} {}).decision = "PASS" ∧
    ("PASS" : String) ≠ "ALLOW" := by
  refine ⟨?_, by decide⟩
  norm_num +decide [ContentModeration.decide, determineVerdict, calculateRiskScore,
    collectFlags, getScamFlags, getFuzzyFlags, getSemanticFlags, getToxicFlags,
    DEFAULT_CONFIG, round3, roundHalfEven, DECISION_PASS]

/-- C2 (amended): for every scanner-output combination that passes the
topic gate, the decision is BLOCK iff risk ≥ block_threshold or
high_severity_count ≥ min_block_signals; otherwise FLAG iff risk ≥
flag_threshold or (high_severity_count ≥ 1 and risk ≥ 0.1); otherwise
the decision stays PASS (the allow verdict).  In particular
high_severity_count ≥ min_block_signals alone forces BLOCK. -/
theorem decide_verdict_rule_amended (cfg : ModerationConfig) (d : DomainResult)
    (s : ScamResult) (t : ToxicResult) (f : FuzzyResult) (m : SemanticResult)
    (hgate : ¬(d.score < cfg.financeFlagThreshold ∨
      (d.score < 3/20 ∧ d.isFinance = false))) :
    ((decide cfg d s t f m).decision = DECISION_BLOCK ↔
      (calculateRiskScore cfg s t f m ≥ cfg.blockThreshold ∨
       (collectFlags s t f m).2 ≥ cfg.minBlockSignals)) ∧
    ((decide cfg d s t f m).decision = DECISION_FLAG ↔
      (¬(calculateRiskScore cfg s t f m ≥ cfg.blockThreshold ∨
         (collectFlags s t f m).2 ≥ cfg.minBlockSignals) ∧
       (calculateRiskScore cfg s t f m ≥ cfg.flagThreshold ∨
        ((collectFlags s t f m).2 ≥ 1 ∧ calculateRiskScore cfg s t f m ≥ 1/10)))) ∧
    ((decide cfg d s t f m).decision = DECISION_PASS ↔
      (¬(calculateRiskScore cfg s t f m ≥ cfg.blockThreshold ∨
         (collectFlags s t f m).2 ≥ cfg.minBlockSignals) ∧
       ¬(calculateRiskScore cfg s t f m ≥ cfg.flagThreshold ∨
         ((collectFlags s t f m).2 ≥ 1 ∧ calculateRiskScore cfg s t f m ≥ 1/10)))) ∧
    ((collectFlags s t f m).2 ≥ cfg.minBlockSignals →
      (decide cfg d s t f m).decision = DECISION_BLOCK) := by
  have h' : ¬(d.score < cfg.financeFlagThreshold ∨
      (d.score < 3/20 ∧ ¬(d.isFinance = true))) := by
    intro hc
    apply hgate
    rcases hc with h1 | ⟨h1, h2⟩
    · exact Or.inl h1
    · exact Or.inr ⟨h1, by simpa using h2⟩
  have hBF : DECISION_BLOCK ≠ DECISION_FLAG := by decide
  have hBP : DECISION_BLOCK ≠ DECISION_PASS := by decide
  have hFB : DECISION_FLAG ≠ DECISION_BLOCK := by decide
  have hFP : DECISION_FLAG ≠ DECISION_PASS := by decide
  have hPB : DECISION_PASS ≠ DECISION_BLOCK := by decide
  have hPF : DECISION_PASS ≠ DECISION_FLAG := by decide
  unfold decide determineVerdict
  dsimp only
  rw [if_neg h']
  by_cases hb : calculateRiskScore cfg s t f m ≥ cfg.blockThreshold ∨
      (collectFlags s t f m).2 ≥ cfg.minBlockSignals
  · rw [if_pos hb]
    exact ⟨iff_of_true rfl hb, iff_of_false hBF (fun hc => hc.1 hb),
      iff_of_false hBP (fun hc => hc.1 hb), fun _ => rfl⟩
  · rw [if_neg hb]
    by_cases hfl : calculateRiskScore cfg s t f m ≥ cfg.flagThreshold ∨
        ((collectFlags s t f m).2 ≥ 1 ∧ calculateRiskScore cfg s t f m ≥ 1/10)
    · rw [if_pos hfl]
      exact ⟨iff_of_false hFB (fun hc => absurd hc hb),
        iff_of_true rfl ⟨hb, hfl⟩, iff_of_false hFP (fun hc => hc.2 hfl),
        fun hc => absurd (Or.inr hc) hb⟩
    · rw [if_neg hfl]
      exact ⟨iff_of_false hPB (fun hc => absurd hc hb),
        iff_of_false hPF (fun hc => absurd hc.2 hfl),
        iff_of_true rfl ⟨hb, hfl⟩, fun hc => absurd (Or.inr hc) hb⟩

/-- C2 (witness): a single high-severity rule signal (with rule score
0.25, so the 0.2 gate is passed) forces BLOCK under the default
configuration although the fused risk 0.175 is far below the block
threshold 0.5. -/
theorem decide_verdict_rule_amended_witness :
    (collectFlags scamOneHigh {} {} {}).2 ≥ DEFAULT_CONFIG.minBlockSignals ∧
    calculateRiskScore DEFAULT_CONFIG scamOneHigh {} {} {} < DEFAULT_CONFIG.blockThreshold ∧
    (decide DEFAULT_CONFIG { score := 1/5, isFinance := true }
        scamOneHigh {} {} {}).decision = DECISION_BLOCK := by
  have hc : (collectFlags scamOneHigh {} {} {}).2 ≥ DEFAULT_CONFIG.minBlockSignals := by
    norm_num +decide [collectFlags, getScamFlags, getFuzzyFlags, getSemanticFlags,
      getToxicFlags, DEFAULT_CONFIG, scamOneHigh, highSig]
  refine ⟨hc, ?_, ?_⟩
  · norm_num [calculateRiskScore, round3, roundHalfEven, DEFAULT_CONFIG, scamOneHigh]
  · exact (decide_verdict_rule_amended DEFAULT_CONFIG { score := 1/5, isFinance := true }
      scamOneHigh {} {} {} (by norm_num [DEFAULT_CONFIG])).2.2.2 hc

/-- C3: for every scanner-output combination that passes the topic
gate, the fused risk score equals
round3(max(rule_score*scam_weight + toxicity_score*toxicity_weight,
fuzzy_score*fuzzy_weight, semantic_score*semantic_weight)): rule and
toxicity are summed while fuzzy and semantic are alternatives combined
by max. -/
theorem decide_riskScore_fusion_formula (cfg : ModerationConfig) (d : DomainResult)
    (s : ScamResult) (t : ToxicResult) (f : FuzzyResult) (m : SemanticResult)
    (hgate : ¬(d.score < cfg.financeFlagThreshold ∨
      (d.score < 3/20 ∧ d.isFinance = false))) :
    (decide cfg d s t f m).riskScore =
      round3 (max (s.score * cfg.scamWeight + t.score * cfg.toxicityWeight)
        (max (f.score * cfg.fuzzyWeight) (m.score * cfg.semanticWeight))) := by
  have h' : ¬(d.score < cfg.financeFlagThreshold ∨
      (d.score < 3/20 ∧ ¬(d.isFinance = true))) := by
    intro hc
    apply hgate
    rcases hc with h1 | ⟨h1, h2⟩
    · exact Or.inl h1
    · exact Or.inr ⟨h1, by simpa using h2⟩
  unfold decide
  dsimp only
  rw [if_neg h']
  rw [determineVerdict_riskScore]
  rfl

/-- C3 (witness): the fusion formula instantiated at concrete scanner
outputs. -/
theorem decide_riskScore_fusion_formula_witness :
    ¬(({ score := 1/5, isFinance := true } : DomainResult).score <
        DEFAULT_CONFIG.financeFlagThreshold ∨
      (({ score := 1/5, isFinance := true } : DomainResult).score < 3/20 ∧
       ({ score := 1/5, isFinance := true } : DomainResult).isFinance = false)) ∧
    (decide DEFAULT_CONFIG { score := 1/5, isFinance := true }
        { score := 1/2 } { score := 1/4 } { score := 3/4 } { score := 1/3 }).riskScore =
      round3 (max ((1/2 : ℚ) * DEFAULT_CONFIG.scamWeight +
          (1/4 : ℚ) * DEFAULT_CONFIG.toxicityWeight)
        (max ((3/4 : ℚ) * DEFAULT_CONFIG.fuzzyWeight)
          ((1/3 : ℚ) * DEFAULT_CONFIG.semanticWeight))) := by
  have hg : ¬(({ score := 1/5, isFinance := true } : DomainResult).score <
      DEFAULT_CONFIG.financeFlagThreshold ∨
      (({ score := 1/5, isFinance := true } : DomainResult).score < 3/20 ∧
       ({ score := 1/5, isFinance := true } : DomainResult).isFinance = false)) := by
    norm_num [DEFAULT_CONFIG]
  exact ⟨hg, decide_riskScore_fusion_formula DEFAULT_CONFIG _ _ _ _ _ hg⟩

/-- C4: if any collaborator failure propagates out of the pipeline
after the empty-input check, `moderate` returns the fail-safe verdict:
decision FLAG, risk_score 1.0 and the flag system_error; it never
returns the allow verdict on an internal error. -/
theorem moderate_failsafe_on_pipeline_error (cfg : ModerationConfig)
    (c : Collaborators) (content : String) (e : String)
    (hne : isBlankInput content = false)
    (herr : moderatePipeline cfg c content = Except.error e) :
    moderate cfg c content = systemErrorVerdict ∧
    systemErrorVerdict.decision = DECISION_FLAG ∧
    systemErrorVerdict.riskScore = 1 ∧
    "system_error" ∈ systemErrorVerdict.flags ∧
    systemErrorVerdict.decision ≠ DECISION_PASS := by
  refine ⟨?_, rfl, rfl, by simp [systemErrorVerdict], by decide⟩
  unfold moderate
  rw [if_neg (by simp [hne])]
  rw [herr]

/-- C4 (witness): a bundle whose rule scanner raises makes `moderate`
return the fail-safe verdict on a concrete text. -/
theorem moderate_failsafe_on_pipeline_error_witness :
    isBlankInput "investing" = false ∧
    moderatePipeline DEFAULT_CONFIG failingCollab "investing" = Except.error "boom" ∧
    moderate DEFAULT_CONFIG failingCollab "investing" = systemErrorVerdict := by
  have h1 : isBlankInput "investing" = false := by decide
  have h2 : moderatePipeline DEFAULT_CONFIG failingCollab "investing" =
      Except.error "boom" := rfl
  exact ⟨h1, h2,
    (moderate_failsafe_on_pipeline_error DEFAULT_CONFIG failingCollab "investing"
      "boom" h1 h2).1⟩

/-- C5: every domain result whose score falls below the
flag-relevance floor, or below 0.15 while not finance, makes the
decision engine return BLOCK with exactly the flag off_topic,
confidence 1 − score, and a risk score that stays 0 (risk fusion is
never reached). -/
theorem decide_topic_gate_blocks_off_topic (cfg : ModerationConfig)
    (d : DomainResult) (s : ScamResult) (t : ToxicResult) (f : FuzzyResult)
    (m : SemanticResult)
    (h : d.score < cfg.financeFlagThreshold ∨ (d.score < 3/20 ∧ d.isFinance = false)) :
    decide cfg d s t f m =
      { decision := DECISION_BLOCK
        confidence := 1 - d.score
        riskScore := 0
        isFinanceRelated := d.isFinance
        flags := ["off_topic"]
        explanation := "Content is not related to finance" } := by
  have h' : d.score < cfg.financeFlagThreshold ∨
      (d.score < 3/20 ∧ ¬(d.isFinance = true)) := by
    rcases h with h1 | ⟨h1, h2⟩
    · exact Or.inl h1
    · exact Or.inr ⟨h1, by simp [h2]⟩
  unfold decide
  dsimp only
  rw [if_pos h']
  simp

/-- C5 (witness): the topic gate instantiated at a concrete off-topic
domain result. -/
theorem decide_topic_gate_blocks_off_topic_witness :
    (((0 : ℚ) < DEFAULT_CONFIG.financeFlagThreshold) ∨
      ((0 : ℚ) < 3/20 ∧ false = false)) ∧
    decide DEFAULT_CONFIG { score := 0, isFinance := false } {} {} {} {} =
      { decision := DECISION_BLOCK
        confidence := 1 - 0
        riskScore := 0
        isFinanceRelated := false
        flags := ["off_topic"]
        explanation := "Content is not related to finance" } :=
  ⟨Or.inl (by norm_num [DEFAULT_CONFIG]),
   decide_topic_gate_blocks_off_topic DEFAULT_CONFIG
     { score := 0, isFinance := false } {} {} {} {}
     (Or.inl (by norm_num [DEFAULT_CONFIG]))⟩

/-- C6: when the content analyzer runs, its unified score rewrites the
domain result exactly as claimed: unified ≥ 0.50 gives
max(vocab, unified) and finance; unified < 0.35 gives 0 and not
finance; in the 0.35–0.50 band, vocab ≥ 0.20 gives the average and
finance, otherwise 0 and not finance. -/
theorem applyContentAnalysis_override_cases (d : DomainResult) (u : ℚ) :
    (u ≥ 1/2 →
      applyContentAnalysis d u = { d with score := max d.score u, isFinance := true }) ∧
    (u < 7/20 →
      applyContentAnalysis d u = { d with score := 0, isFinance := false }) ∧
    (7/20 ≤ u → u < 1/2 → d.score ≥ 1/5 →
      applyContentAnalysis d u =
        { d with score := (d.score + u) / 2, isFinance := true }) ∧
    (7/20 ≤ u → u < 1/2 → d.score < 1/5 →
      applyContentAnalysis d u = { d with score := 0, isFinance := false }) := by
  unfold applyContentAnalysis
  dsimp only
  refine ⟨fun h => ?_, fun h => ?_, fun h1 h2 h3 => ?_, fun h1 h2 h3 => ?_⟩
  · rw [if_pos h]
  · rw [if_neg (by linarith), if_pos h]
  · rw [if_neg (by linarith), if_neg (by linarith), if_pos h3]
  · rw [if_neg (by linarith), if_neg (by linarith), if_neg (by linarith)]

/-- C6 (witness): the strong-signal case instantiated at unified = 0.6
and vocabulary score 0.25. -/
theorem applyContentAnalysis_override_cases_witness :
    ((3 : ℚ)/5 ≥ 1/2) ∧
    applyContentAnalysis { score := 1/4 } (3/5) =
      { score := max (1/4) (3/5), isFinance := true } :=
  ⟨by norm_num,
   (applyContentAnalysis_override_cases { score := 1/4 } (3/5)).1 (by norm_num)⟩

/-- C7 (counterexample): the claim as stated is false on the code.
With reduction 0.4 and a raw summed weight of 1.0 the claim predicts
min(1, 1.0·0.6) = 0.6, but `RuleEngine.check` multiplies by (1 − r) a
second time after clamping and returns 0.36. -/
theorem ruleCheck_single_reduction_claim_false :
    (ruleCheckAggregate (2/5) ([highSig], 1) ([], 0) ([], 0) ([], 0) ([], 0)).score =
      9/25 ∧
    min 1 ((1 : ℚ) * (1 - 2/5)) = 3/5 ∧ ((9 : ℚ)/25 ≠ 3/5) := by
  refine ⟨?_, by norm_num, by norm_num⟩
  norm_num [ruleCheckAggregate, round3, roundHalfEven]

/-- C7 (amended): for any positive whitelist-context reduction r below
the strong level 0.9 and any sub-scanner outputs with positive raw
summed score, the returned score is round3 of
max(0, min(1, raw·(1−r))·(1−r)) — the multiplier (1 − r) is applied
twice, once before and once after the clamp to 1 — and when r ≥ 0.5
all accumulated signals are discarded. -/
theorem ruleCheckAggregate_reduction_applied_twice (r : ℚ)
    (kw money rgx solicit mlm : List Signal × ℚ)
    (h0 : 0 < r) (h09 : r < 9/10)
    (hraw : 0 < kw.2 + money.2 + rgx.2 + solicit.2 + mlm.2) :
    (ruleCheckAggregate r kw money rgx solicit mlm).score =
      round3 (max 0 (min 1 ((kw.2 + money.2 + rgx.2 + solicit.2 + mlm.2) * (1 - r)) *
        (1 - r))) ∧
    (1/2 ≤ r → (ruleCheckAggregate r kw money rgx solicit mlm).signals = []) := by
  unfold ruleCheckAggregate
  dsimp only
  have hc : 0 < r ∧ 0 < kw.2 + money.2 + rgx.2 + solicit.2 + mlm.2 := ⟨h0, hraw⟩
  rw [if_neg (not_le.mpr h09)]
  rw [if_pos hc]
  rw [if_pos h0]
  constructor
  · rfl
  · intro hr
    rw [if_pos hr]
    dsimp only
    split <;> rfl

/-- C7 (amended, witness): the amended formula instantiated at r = 0.4
with raw score 1. -/
theorem ruleCheckAggregate_reduction_applied_twice_witness :
    ((0 : ℚ) < 2/5 ∧ (2 : ℚ)/5 < 9/10 ∧
      (0 : ℚ) < 1 + 0 + 0 + 0 + 0) ∧
    (ruleCheckAggregate (2/5) ([highSig], 1) ([], 0) ([], 0) ([], 0) ([], 0)).score =
      round3 (max 0 (min 1 (((1 : ℚ) + 0 + 0 + 0 + 0) * (1 - 2/5)) * (1 - 2/5))) := by
  refine ⟨⟨by norm_num, by norm_num, by norm_num⟩, ?_⟩
  exact (ruleCheckAggregate_reduction_applied_twice (2/5) ([highSig], 1)
    ([], 0) ([], 0) ([], 0) ([], 0) (by norm_num) (by norm_num) (by norm_num)).1

set_option maxHeartbeats 1600000 in
/-- C8: the claim is right and the code is wrong.  The capped entity
boost min(0.2, entity_boost) is added to the domain score twice (the
statement is duplicated on two consecutive source lines), so two MONEY
entities raise the score by 0.4, not by at most 0.2: with the same
vocabulary and text the score is 1.0 without entities and 1.4 with
them. -/
theorem domainCheck_entity_boost_added_twice_eval :
    (domainCheck entityVocab entityWords lingTwoMoney).score = 7/5 ∧
    (domainCheck entityVocab entityWords lingNoEntities).score = 1 ∧
    ((7 : ℚ)/5 - 1 = 2/5) ∧ ¬((2 : ℚ)/5 ≤ 1/5) := by
  refine ⟨?_, ?_, by norm_num, by norm_num⟩
  · norm_num +decide [domainCheck, entityVocab, entityWords, lingTwoMoney, matchTerm,
      splitOnSpace, splitOnSpaceAux, strLower, charLower, NOISE_ENTITIES,
      AMBIGUOUS_TERMS, round3, roundHalfEven]
  · norm_num +decide [domainCheck, entityVocab, entityWords, lingNoEntities, matchTerm,
      splitOnSpace, splitOnSpaceAux, strLower, charLower, NOISE_ENTITIES,
      AMBIGUOUS_TERMS, round3, roundHalfEven]

/-- C9 (counterexample): the claim as stated is false on the code: the
returned score is the formula rounded to 3 decimals, not the exact
formula.  At threshold 0.72 and similarity 0.73 the formula gives
29/56 = 0.51785..., the checker returns 0.518. -/
theorem semanticCheck_score_rounded_not_exact :
    (semanticCheck (18/25) true false [("tpl", "high")] [73/100]).score = 259/500 ∧
    ((1 : ℚ)/2 + ((73 : ℚ)/100 - 18/25) / (1 - 18/25) * (1/2) = 29/56) ∧
    ((259 : ℚ)/500 ≠ 29/56) := by
  refine ⟨?_, by norm_num, by norm_num⟩
  norm_num [semanticCheck, semanticScale, round3, roundHalfEven]

/-- C9 (amended): the semantic checker's returned score equals round3
of the scaling function s(m) with s(m) = 0.5 + (m−t)/(1−t)·0.5 for
m ≥ t and s(m) = (m/t)²·0.5 for m < t, where m is the maximum template
similarity; consequently m = t gives exactly 0.5, m = 1 gives exactly
1.0 and m = 0 gives exactly 0. -/
theorem semanticCheck_score_scaling_amended (t : ℚ)
    (templates : List (String × String)) (sims : List ℚ)
    (h0 : 0 < t) (h1 : t < 1) :
    (semanticCheck t true false templates sims).score =
      round3 (semanticScale t (sims.foldl (fun a s => max a s) 0)) ∧
    (∀ mx : ℚ, mx ≥ t → semanticScale t mx = 1/2 + (mx - t) / (1 - t) * (1/2)) ∧
    (∀ mx : ℚ, mx < t → semanticScale t mx = (mx / t) ^ 2 * (1/2)) ∧
    semanticScale t t = 1/2 ∧ semanticScale t 1 = 1 ∧ semanticScale t 0 = 0 := by
  refine ⟨?_, fun mx h => by rw [semanticScale, if_pos h],
    fun mx h => by rw [semanticScale, if_neg (not_le.mpr h)], ?_, ?_, ?_⟩
  · simp only [semanticCheck, Bool.not_true, if_neg]
    norm_num
  · unfold semanticScale
    rw [if_pos (le_refl t)]
    simp
  · unfold semanticScale
    rw [if_pos h1.le, div_self (by linarith : (1 : ℚ) - t ≠ 0)]
    norm_num
  · unfold semanticScale
    rw [if_neg (not_le.mpr h0)]
    simp

/-- C9 (amended, witness): the amended scaling instantiated at the
default threshold 0.72 with one similarity 0.73. -/
theorem semanticCheck_score_scaling_amended_witness :
    ((0 : ℚ) < 18/25 ∧ (18 : ℚ)/25 < 1) ∧
    (semanticCheck (18/25) true false [("tpl", "high")] [73/100]).score =
      round3 (semanticScale (18/25) (([73/100] : List ℚ).foldl (fun a s => max a s) 0)) ∧
    semanticScale (18/25) (18/25) = 1/2 :=
  ⟨⟨by norm_num, by norm_num⟩,
   (semanticCheck_score_scaling_amended (18/25) [("tpl", "high")] [73/100]
     (by norm_num) (by norm_num)).1,
   (semanticCheck_score_scaling_amended (18/25) [("tpl", "high")] [73/100]
     (by norm_num) (by norm_num)).2.2.2.1⟩

/-- C10: the high-severity count that drives the BLOCK override is
computed only from the capped evidence subset: rule signals count only
when the rule score is ≥ 0.2, only the first 3 fuzzy and first 2
semantic matches are inspected, toxic evidence counts only when the
result is marked toxic and the paired category lies in the fixed
high-severity set, and evidence beyond the caps never changes the
count (appending matches past the caps leaves the whole collection
unchanged). -/
theorem collectFlags_high_severity_capped (s : ScamResult) (t : ToxicResult)
    (f : FuzzyResult) (m : SemanticResult)
    (extraF : List FuzzyMatch) (extraM : List SemMatch) :
    ((collectFlags s t f m).2 =
      (if s.score ≥ 1/5 then
        (s.signals.filter (fun sg => sg.severity = "high")).length
      else 0)
      + ((f.matchList.take 3).filter (fun x => x.severity = "high")).length
      + ((m.matchList.take 2).filter (fun x => x.severity = "high")).length
      + (if t.isToxic then
          (if t.matched = [] ∧ t.categories ≠ [] then
            (t.categories.filter (fun c => c ∈ HIGH_TOX_CATEGORIES)).length
          else
            (t.matched.enum.filter
              (fun p => toxicCategoryAt t.categories p.1 ∈ HIGH_TOX_CATEGORIES)).length)
        else 0)) ∧
    (s.score < 1/5 → getScamFlags s = ([], 0)) ∧
    (t.isToxic = false → getToxicFlags t = ([], 0)) ∧
    (3 ≤ f.matchList.length →
      collectFlags s t { f with matchList := f.matchList ++ extraF } m =
        collectFlags s t f m) ∧
    (2 ≤ m.matchList.length →
      collectFlags s t f { m with matchList := m.matchList ++ extraM } =
        collectFlags s t f m) := by
  refine ⟨?_, ?_, ?_, ?_, ?_⟩
  · unfold collectFlags
    dsimp only
    rw [getScamFlags_count, getFuzzyFlags_count, getSemanticFlags_count,
      getToxicFlags_count]
  · intro hlow
    unfold getScamFlags
    rw [if_neg (not_le.mpr hlow)]
  · intro hnt
    unfold getToxicFlags
    rw [if_neg (by simp [hnt])]
  · intro hlen
    unfold collectFlags getFuzzyFlags
    dsimp only
    rw [take_append_left _ _ _ hlen]
  · intro hlen
    unfold collectFlags getSemanticFlags
    dsimp only
    rw [take_append_left _ _ _ hlen]

/-- C10 (witness): the count decomposition and both caps instantiated
at concrete scanner outputs (four fuzzy matches, of which only the
first three are inspected). -/
theorem collectFlags_high_severity_capped_witness :
    (collectFlags scamOneHigh { isToxic := false }
        { matchList := [{ input := "a", matched := "b", similarity := 9/10, severity := "high" },
          { input := "c", matched := "d", similarity := 4/5, severity := "high" },
          { input := "e", matched := "f", similarity := 4/5, severity := "medium" }] } {}).2 = 3 ∧
    ((1 : ℚ)/4 < 1/5 ∨ (3 : Nat) ≤ 3) ∧
    collectFlags scamOneHigh { isToxic := false }
        { matchList := ([{ input := "a", matched := "b", similarity := 9/10, severity := "high" },
          { input := "c", matched := "d", similarity := 4/5, severity := "high" },
          { input := "e", matched := "f", similarity := 4/5, severity := "medium" }] ++
          [{ input := "g", matched := "h", similarity := 4/5, severity := "high" }]) } {} =
      collectFlags scamOneHigh { isToxic := false }
        { matchList := [{ input := "a", matched := "b", similarity := 9/10, severity := "high" },
          { input := "c", matched := "d", similarity := 4/5, severity := "high" },
          { input := "e", matched := "f", similarity := 4/5, severity := "medium" }] } {} := by
  refine ⟨?_, Or.inr (by norm_num), ?_⟩
  · norm_num +decide [collectFlags, getScamFlags, getFuzzyFlags, getSemanticFlags,
      getToxicFlags, scamOneHigh, highSig]
  · have h := collectFlags_high_severity_capped scamOneHigh { isToxic := false }
      { matchList := [{ input := "a", matched := "b", similarity := 9/10, severity := "high" },
        { input := "c", matched := "d", similarity := 4/5, severity := "high" },
        { input := "e", matched := "f", similarity := 4/5, severity := "medium" }] } {}
      [{ input := "g", matched := "h", similarity := 4/5, severity := "high" }] []
    exact h.2.2.2.1 (by norm_num)

end ContentModeration
